import Mathlib

/-!
Verification of the gilboost packaging script (src/setup.py).

The repository consists of a single declarative packaging script:

  from setuptools import setup
  from setuptools_rust import Binding, RustExtension

  setup(
      name="gilboost",
      version="0.1.0",
      rust_extensions=[RustExtension("gilboost", binding=Binding.PyO3)],
      zip_safe=False,
      python_requires="=3.12.0",
  )

We embed the script at two levels: the record of arguments passed to the
single setup call, and the statement list of the script together with a
small execution model (an environment says which module imports succeed
and whether the external setup call succeeds).  The interpretation of the
python_requires constraint lives in the external packaging tool, not in
this repository, so its PEP 440 specifier grammar is modelled from the
spec where needed.
-/

namespace Gilboost

/-- The setuptools_rust binding kinds (src/setup.py imports Binding). -/
inductive Binding where
  | PyO3
  | RustCPython
  | NoBinding
  | Exec
deriving DecidableEq, Repr

/-- A RustExtension descriptor as constructed in src/setup.py line 7:
the target module name and the interop binding kind. -/
structure RustExtension where
  target : String
  binding : Binding
deriving DecidableEq, Repr

/-- The keyword arguments of the setup call, src/setup.py lines 4-10. -/
structure SetupArgs where
  name : String
  version : String
  rust_extensions : List RustExtension
  zip_safe : Bool
  python_requires : String
deriving DecidableEq, Repr

/-- The argument record of the one setup call in src/setup.py, transcribed
literally from lines 5-9. -/
def setupCall : SetupArgs :=
  { name := "gilboost"
  , version := "0.1.0"
  , rust_extensions := [{ target := "gilboost", binding := Binding.PyO3 }]
  , zip_safe := false
  , python_requires := "=3.12.0" }

/-- A Python value as it appears among the setup keyword arguments. -/
inductive PyValue where
  | str (s : String)
  | bool (b : Bool)
  | extList (es : List RustExtension)
deriving DecidableEq, Repr

/-- A keyword-argument view of a setup invocation: the ordered list of
keyword/value pairs passed to setup. -/
structure SetupInvocation where
  kwargs : List (String × PyValue)
deriving DecidableEq, Repr

/-- The keyword arguments of the setup call in src/setup.py, in source
order (lines 5-9). -/
def gilboostInvocation : SetupInvocation :=
  { kwargs :=
      [ ("name", PyValue.str setupCall.name)
      , ("version", PyValue.str setupCall.version)
      , ("rust_extensions", PyValue.extList setupCall.rust_extensions)
      , ("zip_safe", PyValue.bool setupCall.zip_safe)
      , ("python_requires", PyValue.str setupCall.python_requires) ] }

/-- A top-level statement of the script: a from-module import of some
names, or a setup invocation. -/
inductive Stmt where
  | moduleImport (module : String) (names : List String)
  | setupStmt (inv : SetupInvocation)
deriving DecidableEq, Repr

/-- The statement list of src/setup.py: two imports (lines 1-2) followed
by the single setup call (lines 4-10). -/
def scriptStmts : List Stmt :=
  [ Stmt.moduleImport "setuptools" ["setup"]
  , Stmt.moduleImport "setuptools_rust" ["Binding", "RustExtension"]
  , Stmt.setupStmt gilboostInvocation ]

/-- The setup invocations among a statement list. -/
def setupInvocationsOf (stmts : List Stmt) : List SetupInvocation :=
  stmts.filterMap (fun s =>
    match s with
    | Stmt.setupStmt inv => some inv
    | Stmt.moduleImport _ _ => none)

end Gilboost

namespace Gilboost

/-- The environment the script runs against: which module imports succeed
and whether the external setup machinery accepts a given invocation.
Both are behaviors of tools outside this repository. -/
structure Env where
  moduleOk : String → Bool
  setupOk : SetupInvocation → Bool

/-- The ways an evaluation of the script can fail.  Both arise from the
external environment (a failing import or a failing external setup call);
the script itself raises nothing. -/
inductive ScriptError where
  | moduleError (module : String)
  | setupError
deriving DecidableEq, Repr

/-- Evaluate one statement in an environment. -/
def runStmt (env : Env) : Stmt → Except ScriptError Unit
  | Stmt.moduleImport m _ =>
      if env.moduleOk m then Except.ok () else Except.error (ScriptError.moduleError m)
  | Stmt.setupStmt inv =>
      if env.setupOk inv then Except.ok () else Except.error ScriptError.setupError

/-- Evaluate a statement list in order, stopping at the first failure. -/
def runStmts (env : Env) : List Stmt → Except ScriptError Unit
  | [] => Except.ok ()
  | s :: rest =>
      match runStmt env s with
      | Except.ok _ => runStmts env rest
      | Except.error e => Except.error e

/-- The trace of argument records passed to setup during an evaluation:
an invocation is recorded when control reaches it, whether or not the
external call then succeeds; a failing import stops the script before
any later statement runs. -/
def runTrace (env : Env) : List Stmt → List SetupInvocation
  | [] => []
  | Stmt.moduleImport m _ :: rest =>
      if env.moduleOk m then runTrace env rest else []
  | Stmt.setupStmt inv :: rest =>
      if env.setupOk inv then inv :: runTrace env rest else [inv]

/-- An environment in which every import and every setup call succeeds. -/
def allTrueEnv : Env :=
  { moduleOk := fun _ => true, setupOk := fun _ => true }

end Gilboost

namespace Pep440

/-- Modelled from the spec: the comparison operators of the PEP 440
version-specifier grammar that the external packaging tool uses to
interpret the python_requires constraint (the tool is not part of this
repository).  A bare "=" is not among them. -/
inductive SpecOp where
  | arbitraryEq
  | eq
  | ne
  | le
  | ge
  | lt
  | gt
  | compatible
deriving DecidableEq, Repr

/-- Split a character list on a separator character. -/
def splitOnChar (c : Char) : List Char → List (List Char)
  | [] => [[]]
  | x :: xs =>
      let r := splitOnChar c xs
      if x = c then [] :: r
      else
        match r with
        | [] => [[x]]
        | y :: ys => (x :: y) :: ys

/-- Read a nonempty all-digit character list as a natural number. -/
def natOfDigits (cs : List Char) : Option Nat :=
  if cs.isEmpty then none
  else
    cs.foldl
      (fun acc c =>
        match acc with
        | none => none
        | some n => if c.isDigit then some (n * 10 + (c.toNat - 48)) else none)
      (some 0)

/-- Modelled from the spec: parse a dotted release segment such as
"3.12.0" into its numeric components. -/
def parseRelease (cs : List Char) : Option (List Nat) :=
  (splitOnChar '.' cs).mapM natOfDigits

/-- Strip an expected leading character list, or fail. -/
def stripLeading : List Char → List Char → Option (List Char)
  | [], cs => some cs
  | _ :: _, [] => none
  | a :: ps, b :: cs => if a = b then stripLeading ps cs else none

/-- Modelled from the spec: the operator spellings of PEP 440, longest
first so that "===" is not read as "==" and "<=" not as "<". -/
def opTable : List (List Char × SpecOp) :=
  [ (['=', '=', '='], SpecOp.arbitraryEq)
  , (['=', '='], SpecOp.eq)
  , (['~', '='], SpecOp.compatible)
  , (['!', '='], SpecOp.ne)
  , (['<', '='], SpecOp.le)
  , (['>', '='], SpecOp.ge)
  , (['<'], SpecOp.lt)
  , (['>'], SpecOp.gt) ]

/-- Read the leading operator of a specifier, returning it and the rest. -/
def splitOp (cs : List Char) : Option (SpecOp × List Char) :=
  opTable.findSome? (fun p => (stripLeading p.1 cs).map (fun r => (p.2, r)))

/-- A parsed PEP 440 specifier: an operator and its version text. -/
structure Specifier where
  op : SpecOp
  version : List Char
deriving DecidableEq, Repr

/-- Modelled from the spec: parse one PEP 440 specifier.  The version
part of a release-comparison operator must be a dotted numeric release
(the only version form appearing in this repository); a string with no
leading operator, such as one beginning with a bare "=", is invalid. -/
def parseSpec (cs : List Char) : Option Specifier :=
  match splitOp cs with
  | none => none
  | some (op, rest) =>
      match op with
      | SpecOp.arbitraryEq =>
          if rest.isEmpty then none else some { op := op, version := rest }
      | _ =>
          match parseRelease rest with
          | some _ => some { op := op, version := rest }
          | none => none

/-- Pad a release to a given length with trailing zero components. -/
def padTo (n : Nat) (l : List Nat) : List Nat :=
  l ++ List.replicate (n - l.length) 0

/-- Lexicographic comparison of numeric lists. -/
def cmpRel : List Nat → List Nat → Ordering
  | [], [] => Ordering.eq
  | [], _ :: _ => Ordering.lt
  | _ :: _, [] => Ordering.gt
  | a :: as, b :: bs =>
      match compare a b with
      | Ordering.eq => cmpRel as bs
      | o => o

/-- Compare two releases after zero-padding to a common length, so that
3.12 and 3.12.0 denote the same version. -/
def relCompare (a b : List Nat) : Ordering :=
  let n := max a.length b.length
  cmpRel (padTo n a) (padTo n b)

/-- Modelled from the spec: whether a parsed specifier admits a candidate
version string, following the PEP 440 comparison semantics for release
versions. -/
def specAdmits (sp : Specifier) (v : String) : Bool :=
  match sp.op with
  | SpecOp.arbitraryEq => sp.version == v.data
  | op =>
      match parseRelease sp.version, parseRelease v.data with
      | some pv, some cv =>
          let o := relCompare cv pv
          match op with
          | SpecOp.eq => o == Ordering.eq
          | SpecOp.ne => o != Ordering.eq
          | SpecOp.le => o != Ordering.gt
          | SpecOp.ge => o != Ordering.lt
          | SpecOp.lt => o == Ordering.lt
          | SpecOp.gt => o == Ordering.gt
          | SpecOp.compatible =>
              let n := max pv.length cv.length
              o != Ordering.lt &&
                (padTo n cv).take (pv.length - 1) == (padTo n pv).take (pv.length - 1)
          | SpecOp.arbitraryEq => false
      | _, _ => false

/-- Modelled from the spec: parse a comma-separated PEP 440 specifier
set, as the external tool does for python_requires; the set is invalid
when any member is. -/
def parseSpecSet (s : String) : Option (List Specifier) :=
  (splitOnChar ',' s.data).mapM parseSpec

/-- Modelled from the spec: whether a python_requires constraint admits
an interpreter version.  An invalid constraint admits nothing. -/
def requiresAdmits (s : String) (v : String) : Bool :=
  match parseSpecSet s with
  | none => false
  | some sps => sps.all (fun sp => specAdmits sp v)

end Pep440

namespace Gilboost

/-- The PEP 440 exact-pin model is not vacuous: the well-formed exact pin
"==3.12.0" parses, admits 3.12.0 (also spelled 3.12), and rejects the
neighbouring versions. -/
theorem exact_pin_model_sound :
    (Pep440.parseSpecSet "==3.12.0").isSome = true ∧
    Pep440.requiresAdmits "==3.12.0" "3.12.0" = true ∧
    Pep440.requiresAdmits "==3.12.0" "3.12" = true ∧
    Pep440.requiresAdmits "==3.12.0" "3.12.1" = false ∧
    Pep440.requiresAdmits "==3.12.0" "3.11.0" = false ∧
    Pep440.requiresAdmits "==3.12.0" "3.13.0" = false := by decide

/-- C1: the claim states that the python_requires argument is an exact
pin to 3.12.0 admitting that version and no other.  The code instead
passes the literal "=3.12.0": a bare "=" is not a PEP 440 operator, so
the constraint is not a valid specifier at all and admits no version,
in particular not 3.12.0. -/
theorem c1_python_requires_not_valid_exact_pin :
    setupCall.python_requires = "=3.12.0" ∧
    Pep440.parseSpecSet setupCall.python_requires = none ∧
    Pep440.requiresAdmits setupCall.python_requires "3.12.0" = false := by decide

/-- C2: exactly one native extension target is declared: the
rust_extensions argument is a list of length one. -/
theorem c2_exactly_one_rust_extension :
    setupCall.rust_extensions.length = 1 := by decide

/-- C3: the name argument passed to setup is the literal string
"gilboost". -/
theorem c3_name_is_gilboost :
    setupCall.name = "gilboost" := by decide

/-- C4: the version argument passed to setup is the literal string
"0.1.0". -/
theorem c4_version_is_0_1_0 :
    setupCall.version = "0.1.0" := by decide

/-- C5: the script performs a single setup invocation, and its keyword
arguments are exactly a name, a version, a rust-extension list, a
zip-safety flag and a Python version constraint, in that order and with
no further keys; besides that call the script holds only the two import
statements. -/
theorem c5_single_setup_invocation_exact_kwargs :
    setupInvocationsOf scriptStmts = [gilboostInvocation] ∧
    gilboostInvocation.kwargs.map Prod.fst =
      ["name", "version", "rust_extensions", "zip_safe", "python_requires"] ∧
    scriptStmts =
      [ Stmt.moduleImport "setuptools" ["setup"]
      , Stmt.moduleImport "setuptools_rust" ["Binding", "RustExtension"]
      , Stmt.setupStmt gilboostInvocation ] := by decide

/-- C6: the single declared native extension is bound through PyO3: the
bindings of the declared extensions are exactly [Binding.PyO3]. -/
theorem c6_binding_is_pyo3 :
    setupCall.rust_extensions.map RustExtension.binding = [Binding.PyO3] := by decide

/-- C7: the script has no error branch of its own: in every environment
in which both imports and the external setup call succeed, evaluation of
the script returns ok. -/
theorem c7_no_internal_error_branch (env : Env)
    (h1 : env.moduleOk "setuptools" = true)
    (h2 : env.moduleOk "setuptools_rust" = true)
    (h3 : env.setupOk gilboostInvocation = true) :
    runStmts env scriptStmts = Except.ok () := by
  simp [runStmts, runStmt, scriptStmts, h1, h2, h3]

/-- Witness for C7 at the environment in which everything succeeds. -/
theorem c7_no_internal_error_branch_witness :
    allTrueEnv.moduleOk "setuptools" = true ∧
    allTrueEnv.moduleOk "setuptools_rust" = true ∧
    allTrueEnv.setupOk gilboostInvocation = true ∧
    runStmts allTrueEnv scriptStmts = Except.ok () :=
  ⟨rfl, rfl, rfl, c7_no_internal_error_branch allTrueEnv rfl rfl rfl⟩

/-- C8: the zip-safety flag passed to setup is the constant False. -/
theorem c8_zip_safe_false :
    setupCall.zip_safe = false := by decide

/-- C9: the native extension target is named after the package: the
targets of the declared extensions are exactly the name argument. -/
theorem c9_extension_named_after_package :
    setupCall.rust_extensions.map RustExtension.target = [setupCall.name] := by decide

/-- C10: the script is deterministic: any two argument records passed to
setup in any two evaluations are equal, namely the literal constant
invocation of src/setup.py. -/
theorem c10_deterministic_setup_args (env₁ env₂ : Env) (i₁ i₂ : SetupInvocation)
    (h1 : i₁ ∈ runTrace env₁ scriptStmts)
    (h2 : i₂ ∈ runTrace env₂ scriptStmts) :
    i₁ = i₂ ∧ i₁ = gilboostInvocation := by
  have key : ∀ (env : Env) (i : SetupInvocation),
      i ∈ runTrace env scriptStmts → i = gilboostInvocation := by
    intro env i h
    simp only [runTrace, scriptStmts] at h
    split_ifs at h <;> simp_all
  exact ⟨(key env₁ i₁ h1).trans (key env₂ i₂ h2).symm, key env₁ i₁ h1⟩

/-- Witness for C10 at the environment in which everything succeeds. -/
theorem c10_deterministic_setup_args_witness :
    gilboostInvocation ∈ runTrace allTrueEnv scriptStmts ∧
    (gilboostInvocation = gilboostInvocation ∧
     gilboostInvocation = gilboostInvocation) :=
  have hmem : gilboostInvocation ∈ runTrace allTrueEnv scriptStmts := by decide
  ⟨hmem, c10_deterministic_setup_args allTrueEnv allTrueEnv
    gilboostInvocation gilboostInvocation hmem hmem⟩

end Gilboost
